import Mathlib

/-!
Shallow embedding of the decision-and-safety pipeline of the Polymarket
copy-trading bot: the risk/circuit-breaker engine (`src/risk.rs`), the
position sizer (`src/sizing.rs`), the retrying executor
(`src/executor.rs`) and the orchestrator's per-event control flow
(`src/main.rs`).  Rust `f64` quantities are modelled as exact rationals
(`ℚ`); `HashMap<String, f64>` exposure is modelled as a total function
`String → ℚ` with default `0` (the Rust code reads a missing entry as
`0.0` via `unwrap_or(0.0)`).
-/

namespace CopyBot

/-- `SizingMode` from `src/types.rs`. -/
inductive SizingMode
  | Fixed
  | Proportional
  | TierBased
deriving DecidableEq, Repr

/-- The configuration fields of `Config` (`src/types.rs`) consumed by the
risk manager, sizer, executor and orchestrator. -/
structure Config where
  walletsToTrack : List String
  sizingMode : SizingMode
  fixedStake : ℚ
  proportionalRatio : ℚ
  minStake : ℚ
  maxStake : ℚ
  maxExposurePerEvent : ℚ
  maxDailyVolume : ℚ
  minLiquidity : ℚ
  cbConsecutiveTrigger : ℕ
  cbMinDepthUsd : ℚ
  retryAttempts : ℕ
  retryDelayMs : ℕ

/-- `TradeSide` from `src/types.rs`. -/
inductive TradeSide
  | BUY
  | SELL
deriving DecidableEq, Repr

/-- `Trade` from `src/types.rs` (the fields the pipeline reads). -/
structure Trade where
  wallet : String
  eventId : String
  marketId : String
  side : TradeSide
  shares : ℚ
  price : ℚ

/-- `Market` from `src/types.rs` (the fields the risk checks read). -/
structure Market where
  id : String
  eventId : String
  liquidity : ℚ

/-- The mutable state owned by `RiskManager`: the `CircuitBreakerState`
struct together with the `event_exposure` map (`src/risk.rs`). -/
structure RiskState where
  consecutiveErrors : ℕ
  totalTradesToday : ℕ
  totalVolumeToday : ℚ
  isTripped : Bool
  tripReason : Option String
  eventExposure : String → ℚ

/-- The state built by `RiskManager::new`. -/
def RiskState.initial : RiskState where
  consecutiveErrors := 0
  totalTradesToday := 0
  totalVolumeToday := 0
  isTripped := false
  tripReason := none
  eventExposure := fun _ => 0

/-- Which risk check failed; `check_can_trade` in the source reports each
case through a distinct `bail!` message. -/
inductive RiskError
  | breakerTripped (reason : String)
  | dailyVolumeExceeded
  | eventExposureExceeded
  | insufficientLiquidity
  | insufficientDepth
deriving DecidableEq, Repr

/-- `RiskManager::check_can_trade` (`src/risk.rs` lines 27–70): the five
checks in source order; the first failing check's error is returned. -/
def check_can_trade (cfg : Config) (s : RiskState) (trade : Trade)
    (market : Market) (sizeUsd : ℚ) : Except RiskError Unit :=
  if s.isTripped then
    .error (.breakerTripped (s.tripReason.getD "Unknown"))
  else if s.totalVolumeToday + sizeUsd > cfg.maxDailyVolume then
    .error .dailyVolumeExceeded
  else if s.eventExposure trade.eventId + sizeUsd > cfg.maxExposurePerEvent then
    .error .eventExposureExceeded
  else if market.liquidity < cfg.minLiquidity then
    .error .insufficientLiquidity
  else if market.liquidity < cfg.cbMinDepthUsd then
    .error .insufficientDepth
  else
    .ok ()

/-- `RiskManager::record_trade` (`src/risk.rs` lines 72–87). -/
def record_trade (trade : Trade) (sizeUsd : ℚ) (s : RiskState) : RiskState :=
  { s with
    totalTradesToday := s.totalTradesToday + 1
    totalVolumeToday := s.totalVolumeToday + sizeUsd
    consecutiveErrors := 0
    eventExposure := fun g =>
      if g = trade.eventId then s.eventExposure g + sizeUsd else s.eventExposure g }

/-- `RiskManager::record_error` (`src/risk.rs` lines 89–108): increments
the consecutive-error counter and, when it has reached
`cb_consecutive_trigger`, trips the breaker and records a reason. -/
def record_error (cfg : Config) (s : RiskState) : RiskState :=
  let n := s.consecutiveErrors + 1
  if cfg.cbConsecutiveTrigger ≤ n then
    { s with
      consecutiveErrors := n
      isTripped := true
      tripReason := some ("Too many consecutive errors: " ++ toString n) }
  else
    { s with consecutiveErrors := n }

/-- `RiskManager::reset_circuit_breaker` (`src/risk.rs`). -/
def reset_circuit_breaker (s : RiskState) : RiskState :=
  { s with isTripped := false, consecutiveErrors := 0, tripReason := none }

/-- `RiskManager::reset_daily_stats` (`src/risk.rs` lines 110–119). -/
def reset_daily_stats (s : RiskState) : RiskState :=
  { s with
    totalTradesToday := 0
    totalVolumeToday := 0
    eventExposure := fun _ => 0 }

/-- `RiskManager::is_whale_verified` (`src/risk.rs`). -/
def is_whale_verified (cfg : Config) (wallet : String) : Bool :=
  cfg.walletsToTrack.contains wallet

/-- The three mutating risk-manager calls the orchestrator issues during
normal operation (an explicit `reset_circuit_breaker` is operator
intervention and is kept separate). -/
inductive RiskOp
  | recordError
  | recordTrade (trade : Trade) (sizeUsd : ℚ)
  | resetDaily

/-- Apply one risk-manager call to the state. -/
def applyOp (cfg : Config) (s : RiskState) : RiskOp → RiskState
  | .recordError => record_error cfg s
  | .recordTrade t sz => record_trade t sz s
  | .resetDaily => reset_daily_stats s

/-- Apply a sequence of risk-manager calls, oldest first. -/
def applyOps (cfg : Config) (s : RiskState) (ops : List RiskOp) : RiskState :=
  ops.foldl (applyOp cfg) s

/-- `PositionSizer::get_tier_multiplier` (`src/sizing.rs` lines 46–58). -/
def get_tier_multiplier (tradeSizeUsd : ℚ) : ℚ :=
  if tradeSizeUsd < 50 then 1/2
  else if tradeSizeUsd < 200 then 1
  else if tradeSizeUsd < 500 then 3/2
  else 2

/-- `PositionSizer::calculate_size` (`src/sizing.rs` lines 13–44):
mode-specific raw size, then `.max(min_stake)`, `.min(max_stake)`,
`.min(your_balance * 0.95)`. -/
def calculate_size (cfg : Config) (whaleTrade : Trade)
    (yourBalance whaleBalance : ℚ) : ℚ :=
  let size :=
    match cfg.sizingMode with
    | .Fixed => cfg.fixedStake
    | .Proportional =>
      let ratio := yourBalance / max whaleBalance 1
      whaleTrade.shares * whaleTrade.price * ratio
    | .TierBased =>
      let tradeSize := whaleTrade.shares * whaleTrade.price
      let multiplier := get_tier_multiplier tradeSize
      whaleTrade.shares * multiplier * cfg.proportionalRatio
  let size := max size cfg.minStake
  let size := min size cfg.maxStake
  min size (yourBalance * (95/100))

/-- `PositionSizer::shares_from_usd` (`src/sizing.rs` lines 60–65). -/
def shares_from_usd (usdAmount price : ℚ) : ℚ :=
  if price ≤ 0 then 0 else usdAmount / price

/-- One `place_order` outcome observed by an attempt of
`execute_with_retry`: either a response carrying a status string, or a
transport/API error carrying a message. -/
inductive Attempt
  | ok (status : String)
  | err (msg : String)
deriving DecidableEq, Repr

/-- `resp.status == "filled" || resp.status == "partially_filled"`
(`src/executor.rs`). -/
def isSuccessStatus (st : String) : Bool :=
  st == "filled" || st == "partially_filled"

/-- `resp.status == "cancelled" || resp.status == "rejected"`
(`src/executor.rs`). -/
def isTerminalStatus (st : String) : Bool :=
  st == "cancelled" || st == "rejected"

/-- How `execute_with_retry` ends.  `exhausted` is the
`last_error.unwrap().context("Failed to execute order after {n} attempts")`
return; `panicked` is the case where the loop exhausts its attempts with
`last_error == None`, so `last_error.unwrap()` panics. -/
inductive RetryResult
  | success (status : String) (attemptsUsed : ℕ)
  | terminal (status : String) (attemptsUsed : ℕ)
  | exhausted (lastErr : String) (totalAttempts : ℕ)
  | panicked
deriving DecidableEq, Repr

/-- The `while attempts < retry_attempts` loop of
`TradeExecutor::execute_with_retry` (`src/executor.rs` lines 53–93).
`oracle n` is what the `n`-th `place_order` call (n starting at 1)
returns; `remaining = retry_attempts - attempts` drives the recursion.
The second component collects the backoff sleeps performed, in order,
each `retry_delay_ms * attempt_number` milliseconds. -/
def retryLoop (cfg : Config) (oracle : ℕ → Attempt) :
    ℕ → ℕ → Option String → List ℕ → RetryResult × List ℕ
  | 0, _, lastError, sleeps =>
    match lastError with
    | some e => (.exhausted e cfg.retryAttempts, sleeps)
    | none => (.panicked, sleeps)
  | remaining + 1, attempts, lastError, sleeps =>
    let a := attempts + 1
    match oracle a with
    | .ok st =>
      if isSuccessStatus st then (.success st a, sleeps)
      else if isTerminalStatus st then (.terminal st a, sleeps)
      else retryLoop cfg oracle remaining a lastError sleeps
    | .err e =>
      let sleeps' :=
        if a < cfg.retryAttempts then sleeps ++ [cfg.retryDelayMs * a] else sleeps
      retryLoop cfg oracle remaining a (some e) sleeps'

/-- `TradeExecutor::execute_with_retry` run from a fresh call:
`attempts = 0`, `last_error = None`. -/
def execute_with_retry (cfg : Config) (oracle : ℕ → Attempt) :
    RetryResult × List ℕ :=
  retryLoop cfg oracle cfg.retryAttempts 0 none []

/-- An attempt outcome the loop retries past: any transport/API error, or
a response whose status is neither a success nor a terminal status. -/
def retriable : Attempt → Prop
  | .err _ => True
  | .ok st => isSuccessStatus st = false ∧ isTerminalStatus st = false

instance : DecidablePred retriable := fun a =>
  match a with
  | .err _ => isTrue trivial
  | .ok _ => instDecidableAnd

/-- The `last_error` value held after attempts `att+1 … att+rem` have all
been made and retried past, starting from `le`: the message of the last
transport error among them, if any. -/
def finalLastError (oracle : ℕ → Attempt) :
    ℕ → ℕ → Option String → Option String
  | _, 0, le => le
  | att, rem + 1, le =>
    finalLastError oracle (att + 1) rem
      (match oracle (att + 1) with
       | .err e => some e
       | .ok _ => le)

/-- The backoff sleeps performed while retrying past attempts
`att+1 … att+rem`: `retry_delay_ms * a` after each transport-error
attempt `a` that is not the final allowed attempt; a retried-past
response status sleeps nothing. -/
def accSleeps (cfg : Config) (oracle : ℕ → Attempt) : ℕ → ℕ → List ℕ
  | _, 0 => []
  | att, rem + 1 =>
    (match oracle (att + 1) with
     | .err _ =>
       if att + 1 < cfg.retryAttempts then [cfg.retryDelayMs * (att + 1)] else []
     | .ok _ => []) ++ accSleeps cfg oracle (att + 1) rem

/-- `OrderResponse` from `src/types.rs` (the fields the orchestrator
reads). -/
structure OrderResponse where
  orderId : String
  status : String
  filledShares : ℚ
  avgFillPrice : ℚ

/-- How one pass of the main loop ended for one event
(`src/main.rs` lines 63–148). -/
inductive StepOutcome
  | skippedUnverified
  | failedMarketFetch
  | failedBalanceFetch
  | failedSizing
  | failedRiskCheck
  | failedExecution
  | traded
deriving DecidableEq, Repr

/-- The whale-balance fallback in `src/main.rs`: a failed
`api.get_balance(&whale_trade.wallet)` substitutes `1000000.0`. -/
def whale_balance_or_default (whaleBalanceFetch : Except String ℚ) : ℚ :=
  match whaleBalanceFetch with
  | .ok b => b
  | .error _ => 1000000

/-- One iteration of the main trading loop (`src/main.rs` lines 63–148),
parametric over the outcomes of the external calls it makes:
`marketFetch` is `api.get_market`, `ownBalanceFetch` and
`whaleBalanceFetch` are the two `api.get_balance` calls, `sizingResult`
is what `sizer.calculate_size` returned for the fetched balances, and
`execResult` is what `executor.execute_trade` returned.  Returns the
risk state after the iteration and how the event ended.  A failed whale
balance fetch substitutes `1000000.0` and continues; a risk rejection
`continue`s without touching the risk state; the other failures call
`record_error` and a successful execution calls `record_trade`. -/
def process_event (cfg : Config) (s : RiskState) (whaleTrade : Trade)
    (marketFetch : Except String Market)
    (ownBalanceFetch : Except String ℚ)
    (whaleBalanceFetch : Except String ℚ)
    (sizingResult : ℚ → ℚ → Except String ℚ)
    (execResult : Except String OrderResponse) :
    RiskState × StepOutcome :=
  if ¬ is_whale_verified cfg whaleTrade.wallet then
    (s, .skippedUnverified)
  else
    match marketFetch with
    | .error _ => (record_error cfg s, .failedMarketFetch)
    | .ok market =>
      match ownBalanceFetch with
      | .error _ => (record_error cfg s, .failedBalanceFetch)
      | .ok yourBalance =>
        match sizingResult yourBalance (whale_balance_or_default whaleBalanceFetch) with
        | .error _ => (record_error cfg s, .failedSizing)
        | .ok sizeUsd =>
          match check_can_trade cfg s whaleTrade market sizeUsd with
          | .error _ => (s, .failedRiskCheck)
          | .ok _ =>
            match execResult with
            | .error _ => (record_error cfg s, .failedExecution)
            | .ok _ => (record_trade whaleTrade sizeUsd s, .traded)

/-- Fold a list of `(trade, size_usd)` pairs through `record_trade`,
oldest first. -/
def applyTrades (ts : List (Trade × ℚ)) (s : RiskState) : RiskState :=
  ts.foldl (fun st p => record_trade p.1 p.2 st) s

/-- The sum of the sizes recorded for event group `g` in a list of
`(trade, size_usd)` pairs. -/
def sumSizesFor (g : String) (ts : List (Trade × ℚ)) : ℚ :=
  ((ts.filter (fun p => p.1.eventId == g)).map (fun p => p.2)).sum

/-- The mode-specific raw size exactly as the specification words it,
before any clamping (spec §4.2): `fixed_stake` in Fixed mode,
`shares * price * (own_balance / max(source_balance, 1))` in
Proportional mode, `shares * tier_multiplier(shares * price) *
proportional_ratio` in TierBased mode. -/
def spec_raw_size (cfg : Config) (t : Trade) (yourBalance whaleBalance : ℚ) : ℚ :=
  match cfg.sizingMode with
  | .Fixed => cfg.fixedStake
  | .Proportional => t.shares * t.price * (yourBalance / max whaleBalance 1)
  | .TierBased => t.shares * get_tier_multiplier (t.shares * t.price) * cfg.proportionalRatio

/-- `RiskManager::check_can_trade` viewed as a state transformer.  The
Rust method takes `&self`, acquires the state and exposure locks only to
read, and performs no writes, so its faithful state-passing embedding
returns the incoming state alongside the verdict. -/
def check_can_trade_step (cfg : Config) (trade : Trade) (market : Market)
    (sizeUsd : ℚ) (s : RiskState) : RiskState × Except RiskError Unit :=
  (s, check_can_trade cfg s trade market sizeUsd)

/-- A concrete configuration used by closed witness statements; its
values mirror the unit-test configuration in `src/risk.rs` together with
`Config::default`'s retry parameters. -/
def cfgDemo : Config where
  walletsToTrack := ["0xwhale"]
  sizingMode := .Fixed
  fixedStake := 25
  proportionalRatio := 1/50
  minStake := 5
  maxStake := 100
  maxExposurePerEvent := 500
  maxDailyVolume := 1000
  minLiquidity := 100
  cbConsecutiveTrigger := 3
  cbMinDepthUsd := 50
  retryAttempts := 4
  retryDelayMs := 500

/-- A concrete observed trade used by closed witness statements. -/
def tradeDemo : Trade where
  wallet := "0xwhale"
  eventId := "event1"
  marketId := "market1"
  side := .BUY
  shares := 100
  price := 1/2

/-- A concrete market snapshot used by closed witness statements. -/
def marketDemo : Market where
  id := "market1"
  eventId := "event1"
  liquidity := 5000

/-- A concrete risk state with the breaker tripped and today's volume
close to the cap, used by closed witness statements. -/
def trippedDemo : RiskState where
  consecutiveErrors := 3
  totalTradesToday := 7
  totalVolumeToday := 990
  isTripped := true
  tripReason := some "Too many consecutive errors: 3"
  eventExposure := fun _ => 0

/-- C1: `check_can_trade` evaluates its five checks strictly in the
order breaker-tripped, daily-volume, event-exposure, liquidity, depth,
and returns the error of the first failing check with no further checks
run; in particular, when the breaker is tripped and the daily volume is
also exceeded, the result is the breaker-tripped error, not the
daily-volume error. -/
theorem check_can_trade_first_failing_check (cfg : Config) (s : RiskState)
    (trade : Trade) (market : Market) (sizeUsd : ℚ) :
    (s.isTripped = true →
      check_can_trade cfg s trade market sizeUsd =
        .error (.breakerTripped (s.tripReason.getD "Unknown")))
  ∧ (s.isTripped = true → s.totalVolumeToday + sizeUsd > cfg.maxDailyVolume →
      check_can_trade cfg s trade market sizeUsd =
        .error (.breakerTripped (s.tripReason.getD "Unknown")))
  ∧ (s.isTripped = false →
     s.totalVolumeToday + sizeUsd > cfg.maxDailyVolume →
      check_can_trade cfg s trade market sizeUsd = .error .dailyVolumeExceeded)
  ∧ (s.isTripped = false →
     ¬ s.totalVolumeToday + sizeUsd > cfg.maxDailyVolume →
     s.eventExposure trade.eventId + sizeUsd > cfg.maxExposurePerEvent →
      check_can_trade cfg s trade market sizeUsd = .error .eventExposureExceeded)
  ∧ (s.isTripped = false →
     ¬ s.totalVolumeToday + sizeUsd > cfg.maxDailyVolume →
     ¬ s.eventExposure trade.eventId + sizeUsd > cfg.maxExposurePerEvent →
     market.liquidity < cfg.minLiquidity →
      check_can_trade cfg s trade market sizeUsd = .error .insufficientLiquidity)
  ∧ (s.isTripped = false →
     ¬ s.totalVolumeToday + sizeUsd > cfg.maxDailyVolume →
     ¬ s.eventExposure trade.eventId + sizeUsd > cfg.maxExposurePerEvent →
     ¬ market.liquidity < cfg.minLiquidity →
     market.liquidity < cfg.cbMinDepthUsd →
      check_can_trade cfg s trade market sizeUsd = .error .insufficientDepth)
  ∧ (s.isTripped = false →
     ¬ s.totalVolumeToday + sizeUsd > cfg.maxDailyVolume →
     ¬ s.eventExposure trade.eventId + sizeUsd > cfg.maxExposurePerEvent →
     ¬ market.liquidity < cfg.minLiquidity →
     ¬ market.liquidity < cfg.cbMinDepthUsd →
      check_can_trade cfg s trade market sizeUsd = .ok ()) := by
  refine ⟨?_, ?_, ?_, ?_, ?_, ?_, ?_⟩ <;> intros <;>
    simp only [check_can_trade] <;> split_ifs <;> simp_all

/-- Witness for C1 at a concrete input: breaker tripped and daily volume
exceeded together yield the breaker-tripped error. -/
theorem check_can_trade_first_failing_check_witness :
    trippedDemo.isTripped = true
  ∧ trippedDemo.totalVolumeToday + 50 > cfgDemo.maxDailyVolume
  ∧ check_can_trade cfgDemo trippedDemo tradeDemo marketDemo 50 =
      .error (.breakerTripped "Too many consecutive errors: 3") :=
  ⟨rfl, by norm_num [trippedDemo, cfgDemo],
    (check_can_trade_first_failing_check cfgDemo trippedDemo tradeDemo
      marketDemo 50).2.1 rfl (by norm_num [trippedDemo, cfgDemo])⟩

/-- C5: `reset_daily_stats` zeroes the daily trade count and volume and
clears the exposure map, leaves `is_tripped`, `trip_reason` and
`consecutive_errors` unchanged, and is idempotent. -/
theorem reset_daily_stats_frame_idempotent (s : RiskState) :
    (reset_daily_stats s).totalTradesToday = 0
  ∧ (reset_daily_stats s).totalVolumeToday = 0
  ∧ (reset_daily_stats s).eventExposure = (fun _ => 0)
  ∧ (reset_daily_stats s).isTripped = s.isTripped
  ∧ (reset_daily_stats s).tripReason = s.tripReason
  ∧ (reset_daily_stats s).consecutiveErrors = s.consecutiveErrors
  ∧ reset_daily_stats (reset_daily_stats s) = reset_daily_stats s :=
  ⟨rfl, rfl, rfl, rfl, rfl, rfl, rfl⟩

/-- C9: `shares_from_usd` is total and guarded against division by zero:
it returns `0` when `price ≤ 0` and `usd / price` otherwise. -/
theorem shares_from_usd_total_guarded (usdAmount price : ℚ) :
    (price ≤ 0 → shares_from_usd usdAmount price = 0)
  ∧ (0 < price → shares_from_usd usdAmount price = usdAmount / price) := by
  constructor
  · intro h
    simp [shares_from_usd, h]
  · intro h
    simp [shares_from_usd, not_le.mpr h]

/-- Witness for C9 at concrete inputs: a zero price yields zero shares,
a positive price yields the quotient. -/
theorem shares_from_usd_total_guarded_witness :
    shares_from_usd 10 0 = 0 ∧ shares_from_usd 10 4 = 10 / 4 :=
  ⟨(shares_from_usd_total_guarded 10 0).1 (by norm_num),
   (shares_from_usd_total_guarded 10 4).2 (by norm_num)⟩

/-- C10 (implicit): `check_can_trade` is read-only — as a state
transformer it returns the risk state unchanged, every field included,
whether it approves or rejects; no exposure is reserved on approval. -/
theorem check_can_trade_read_only (cfg : Config) (s : RiskState)
    (trade : Trade) (market : Market) (sizeUsd : ℚ) :
    (check_can_trade_step cfg trade market sizeUsd s).1 = s
  ∧ (check_can_trade_step cfg trade market sizeUsd s).1.consecutiveErrors =
      s.consecutiveErrors
  ∧ (check_can_trade_step cfg trade market sizeUsd s).1.totalTradesToday =
      s.totalTradesToday
  ∧ (check_can_trade_step cfg trade market sizeUsd s).1.totalVolumeToday =
      s.totalVolumeToday
  ∧ (check_can_trade_step cfg trade market sizeUsd s).1.isTripped = s.isTripped
  ∧ (check_can_trade_step cfg trade market sizeUsd s).1.tripReason = s.tripReason
  ∧ (check_can_trade_step cfg trade market sizeUsd s).1.eventExposure =
      s.eventExposure
  ∧ (record_trade trade sizeUsd s).eventExposure trade.eventId =
      s.eventExposure trade.eventId + sizeUsd := by
  refine ⟨rfl, rfl, rfl, rfl, rfl, rfl, rfl, ?_⟩
  simp [record_trade]

/-- No single risk-manager call made during normal operation clears a
tripped breaker. -/
theorem applyOp_preserves_tripped (cfg : Config) (s : RiskState) (op : RiskOp)
    (h : s.isTripped = true) : (applyOp cfg s op).isTripped = true := by
  cases op with
  | recordError =>
    by_cases htrig : cfg.cbConsecutiveTrigger ≤ s.consecutiveErrors + 1 <;>
      simp [applyOp, record_error, htrig, h]
  | recordTrade t sz => simpa [applyOp, record_trade] using h
  | resetDaily => simpa [applyOp, reset_daily_stats] using h

/-- No sequence of risk-manager calls made during normal operation
clears a tripped breaker. -/
theorem applyOps_preserves_tripped (cfg : Config) (ops : List RiskOp) :
    ∀ s : RiskState, s.isTripped = true → (applyOps cfg s ops).isTripped = true := by
  induction ops with
  | nil => intro s h; exact h
  | cons op rest ih =>
    intro s h
    exact ih (applyOp cfg s op) (applyOp_preserves_tripped cfg s op h)

/-- C2: the circuit breaker is a one-way latch.  `record_error`
increments the consecutive-error counter and trips the breaker exactly
when the counter reaches `cb_consecutive_trigger` (recording a trip
reason); no sequence of `record_error`, `record_trade` and
`reset_daily_stats` calls clears a tripped breaker; only an explicit
`reset_circuit_breaker` does. -/
theorem circuit_breaker_one_way_latch (cfg : Config) (s : RiskState)
    (ops : List RiskOp) :
    ((record_error cfg s).consecutiveErrors = s.consecutiveErrors + 1)
  ∧ ((record_error cfg s).isTripped =
      (s.isTripped || decide (cfg.cbConsecutiveTrigger ≤ s.consecutiveErrors + 1)))
  ∧ (cfg.cbConsecutiveTrigger ≤ s.consecutiveErrors + 1 →
      (record_error cfg s).tripReason =
        some ("Too many consecutive errors: " ++ toString (s.consecutiveErrors + 1)))
  ∧ (s.isTripped = true → (applyOps cfg s ops).isTripped = true)
  ∧ ((reset_circuit_breaker s).isTripped = false)
  ∧ ((reset_circuit_breaker s).consecutiveErrors = 0) := by
  refine ⟨?_, ?_, ?_, applyOps_preserves_tripped cfg ops s, rfl, rfl⟩
  · by_cases htrig : cfg.cbConsecutiveTrigger ≤ s.consecutiveErrors + 1 <;>
      simp [record_error, htrig]
  · by_cases htrig : cfg.cbConsecutiveTrigger ≤ s.consecutiveErrors + 1 <;>
      simp [record_error, htrig]
  · intro htrig
    simp [record_error, htrig]

/-- Witness for C2 at a concrete input: a tripped state stays tripped
through a further error, a recorded trade and a daily reset, and a
third consecutive error trips a fresh state under trigger 3. -/
theorem circuit_breaker_one_way_latch_witness :
    (applyOps cfgDemo trippedDemo
      [.recordError, .recordTrade tradeDemo 50, .resetDaily]).isTripped = true
  ∧ (record_error cfgDemo
      { RiskState.initial with consecutiveErrors := 2 }).isTripped = true :=
  ⟨(circuit_breaker_one_way_latch cfgDemo trippedDemo
      [.recordError, .recordTrade tradeDemo 50, .resetDaily]).2.2.2.1 rfl,
   by
    have h := (circuit_breaker_one_way_latch cfgDemo
      { RiskState.initial with consecutiveErrors := 2 } []).2.1
    rw [h]
    decide⟩

/-- `applyTrades` only ever adds the recorded sizes on top of the
starting exposure, group by group. -/
theorem applyTrades_eventExposure (g : String) :
    ∀ (ts : List (Trade × ℚ)) (s : RiskState),
      (applyTrades ts s).eventExposure g = s.eventExposure g + sumSizesFor g ts := by
  intro ts
  induction ts with
  | nil => intro s; simp [applyTrades, sumSizesFor]
  | cons p rest ih =>
    intro s
    have step : (applyTrades (p :: rest) s) = applyTrades rest (record_trade p.1 p.2 s) := rfl
    rw [step, ih]
    by_cases h : g = p.1.eventId
    · have hbeq : (p.1.eventId == g) = true := by simp [h]
      simp [record_trade, sumSizesFor, h, hbeq, List.filter_cons]
      ring
    · have hbeq : (p.1.eventId == g) = false := by
        simp [BEq.beq]
        intro hc
        exact h hc.symm
      simp [record_trade, sumSizesFor, h, hbeq, List.filter_cons]

/-- C6: starting from a fresh risk manager or any state just after
`reset_daily_stats`, after any finite sequence of `record_trade` calls
the exposure entry of each group equals the sum of the sizes recorded
for that group since the reset; and each `record_trade` increments the
daily trade count, adds the size to the daily volume and resets the
consecutive-error counter to zero. -/
theorem exposure_accounting_invariant (s : RiskState) (ts : List (Trade × ℚ))
    (g : String) (t : Trade) (sz : ℚ) :
    (applyTrades ts (reset_daily_stats s)).eventExposure g = sumSizesFor g ts
  ∧ (applyTrades ts RiskState.initial).eventExposure g = sumSizesFor g ts
  ∧ (record_trade t sz s).totalTradesToday = s.totalTradesToday + 1
  ∧ (record_trade t sz s).totalVolumeToday = s.totalVolumeToday + sz
  ∧ (record_trade t sz s).consecutiveErrors = 0 := by
  refine ⟨?_, ?_, rfl, rfl, rfl⟩
  · rw [applyTrades_eventExposure g ts (reset_daily_stats s)]
    simp [reset_daily_stats]
  · rw [applyTrades_eventExposure g ts RiskState.initial]
    simp [RiskState.initial]

/-- C7: `calculate_size` equals
`min (0.95 * own_balance) (min max_stake (max min_stake raw))` with the
mode-specific raw size the specification states, so the 95%-of-balance
cap is applied after the `[min_stake, max_stake]` clamp; and the tier
multiplier is 0.5 below 50, 1.0 on [50, 200), 1.5 on [200, 500) and 2.0
at or above 500. -/
theorem calculate_size_clamping_formula (cfg : Config) (t : Trade)
    (yourBalance whaleBalance x : ℚ) :
    calculate_size cfg t yourBalance whaleBalance =
      min ((95/100) * yourBalance)
        (min cfg.maxStake (max cfg.minStake (spec_raw_size cfg t yourBalance whaleBalance)))
  ∧ (x < 50 → get_tier_multiplier x = 1/2)
  ∧ (50 ≤ x → x < 200 → get_tier_multiplier x = 1)
  ∧ (200 ≤ x → x < 500 → get_tier_multiplier x = 3/2)
  ∧ (500 ≤ x → get_tier_multiplier x = 2) := by
  refine ⟨?_, ?_, ?_, ?_, ?_⟩
  · cases h : cfg.sizingMode <;>
      simp only [calculate_size, spec_raw_size, h] <;>
      rw [mul_comm yourBalance (95/100), min_comm _ ((95/100) * yourBalance),
        max_comm _ cfg.minStake, min_comm _ cfg.maxStake]
  · intro h1
    simp [get_tier_multiplier, h1]
  · intro h1 h2
    simp [get_tier_multiplier, not_lt.mpr h1, h2]
  · intro h1 h2
    simp [get_tier_multiplier, not_lt.mpr (by linarith : (50:ℚ) ≤ x),
      not_lt.mpr h1, h2]
  · intro h1
    simp [get_tier_multiplier, not_lt.mpr (by linarith : (50:ℚ) ≤ x),
      not_lt.mpr (by linarith : (200:ℚ) ≤ x), not_lt.mpr h1]

/-- Witness for C7 at concrete inputs: the clamp formula on the demo
trade, and one tier-multiplier value per tier. -/
theorem calculate_size_clamping_formula_witness :
    calculate_size cfgDemo tradeDemo 1000 10000 =
      min ((95/100) * 1000)
        (min cfgDemo.maxStake (max cfgDemo.minStake (spec_raw_size cfgDemo tradeDemo 1000 10000)))
  ∧ get_tier_multiplier 30 = 1/2
  ∧ get_tier_multiplier 100 = 1
  ∧ get_tier_multiplier 300 = 3/2
  ∧ get_tier_multiplier 700 = 2 :=
  ⟨(calculate_size_clamping_formula cfgDemo tradeDemo 1000 10000 0).1,
   (calculate_size_clamping_formula cfgDemo tradeDemo 1000 10000 30).2.1 (by norm_num),
   (calculate_size_clamping_formula cfgDemo tradeDemo 1000 10000 100).2.2.1
     (by norm_num) (by norm_num),
   (calculate_size_clamping_formula cfgDemo tradeDemo 1000 10000 300).2.2.2.1
     (by norm_num) (by norm_num),
   (calculate_size_clamping_formula cfgDemo tradeDemo 1000 10000 700).2.2.2.2
     (by norm_num)⟩

/-- A terminal status string is never a success status string. -/
theorem terminal_not_success {st : String} (h : isTerminalStatus st = true) :
    isSuccessStatus st = false := by
  simp only [isTerminalStatus, Bool.or_eq_true, beq_iff_eq] at h
  rcases h with h | h <;> subst h <;> decide

/-- When every attempt in the window is retriable, the retry loop runs
the window to exhaustion: it ends on the last transport error seen (or
on the `unwrap` panic when there was none) and performs exactly the
backoff sleeps of the non-final transport-error attempts. -/
theorem retryLoop_all_retriable (cfg : Config) (oracle : ℕ → Attempt) :
    ∀ (rem att : ℕ) (le : Option String) (sl : List ℕ),
      att + rem = cfg.retryAttempts →
      (∀ m, att < m → m ≤ att + rem → retriable (oracle m)) →
      retryLoop cfg oracle rem att le sl =
        ((match finalLastError oracle att rem le with
          | some e => RetryResult.exhausted e cfg.retryAttempts
          | none => RetryResult.panicked),
         sl ++ accSleeps cfg oracle att rem) := by
  intro rem
  induction rem with
  | zero =>
    intro att le sl _ _
    cases le <;> simp [retryLoop, finalLastError, accSleeps]
  | succ r ih =>
    intro att le sl htot hret
    have hcur : retriable (oracle (att + 1)) := hret (att + 1) (by omega) (by omega)
    cases hor : oracle (att + 1) with
    | ok st =>
      rw [hor] at hcur
      obtain ⟨hs, ht⟩ := hcur
      have hrec := ih (att + 1) le sl (by omega)
        (fun m h1 h2 => hret m (by omega) (by omega))
      simp only [retryLoop, hor, hs, ht, Bool.false_eq_true, if_false]
      rw [hrec]
      simp [finalLastError, accSleeps, hor]
    | err e =>
      have hrec := ih (att + 1) (some e)
        (sl ++ if att + 1 < cfg.retryAttempts then [cfg.retryDelayMs * (att + 1)] else [])
        (by omega) (fun m h1 h2 => hret m (by omega) (by omega))
      have hshape :
          (if att + 1 < cfg.retryAttempts then sl ++ [cfg.retryDelayMs * (att + 1)] else sl)
            = sl ++ if att + 1 < cfg.retryAttempts then [cfg.retryDelayMs * (att + 1)] else [] := by
        by_cases hlt : att + 1 < cfg.retryAttempts <;> simp [hlt]
      simp only [retryLoop, hor]
      rw [hshape, hrec]
      simp only [finalLastError, accSleeps, hor]
      by_cases hlt : att + 1 < cfg.retryAttempts <;> simp [hlt, List.append_assoc]

/-- The amended C3: when every attempt within the retry budget is
retriable (a transport/API error or a non-terminal, non-success
response status), `execute_with_retry` makes exactly `retry_attempts`
attempts, sleeps `retry_delay_ms * attempt_number` after each non-final
transport-error attempt (a retried response status sleeps nothing), and
returns the last transport error annotated with the attempt count when
at least one attempt was a transport error — while it hits the
`last_error.unwrap()` panic when no attempt was. -/
theorem execute_with_retry_exhaustion (cfg : Config) (oracle : ℕ → Attempt)
    (hret : ∀ m, 1 ≤ m → m ≤ cfg.retryAttempts → retriable (oracle m)) :
    execute_with_retry cfg oracle =
      ((match finalLastError oracle 0 cfg.retryAttempts none with
        | some e => RetryResult.exhausted e cfg.retryAttempts
        | none => RetryResult.panicked),
       accSleeps cfg oracle 0 cfg.retryAttempts) := by
  have h := retryLoop_all_retriable cfg oracle cfg.retryAttempts 0 none []
    (by omega) (fun m h1 h2 => hret m (by omega) (by omega))
  simpa [execute_with_retry] using h

/-- Witness for the amended C3, the spec's own vector: four attempts at
500 ms base delay against an always-failing transport yield the last
transport error after sleeps of 500, 1000 and 1500 ms. -/
theorem execute_with_retry_exhaustion_witness :
    execute_with_retry cfgDemo (fun _ => .err "transport error") =
      (RetryResult.exhausted "transport error" 4, [500, 1000, 1500]) := by
  have h := execute_with_retry_exhaustion cfgDemo (fun _ => .err "transport error")
    (fun m _ _ => trivial)
  rw [h]
  decide

/-- Counterexample to C3 as stated: with every attempt returning the
non-terminal, non-success status `"pending"` (which the claim's scope
includes), the code performs no backoff sleep at all and ends in the
`last_error.unwrap()` panic instead of returning an error. -/
theorem execute_with_retry_pending_counterexample :
    execute_with_retry cfgDemo (fun _ => .ok "pending") = (RetryResult.panicked, [])
  ∧ ¬ ∃ e n, execute_with_retry cfgDemo (fun _ => .ok "pending") =
      (RetryResult.exhausted e n, [500, 1000, 1500]) := by
  have hval : execute_with_retry cfgDemo (fun _ => .ok "pending") =
      (RetryResult.panicked, []) := by decide
  refine ⟨hval, ?_⟩
  rintro ⟨e, n, h⟩
  rw [hval] at h
  simp [Prod.ext_iff] at h

/-- When the first `d` attempts after `att` are retriable and attempt
`att + d + 1` (still within the budget) returns a terminal status, the
retry loop stops right there: a hard failure after that attempt, with
only the sleeps of the preceding transport-error attempts. -/
theorem retryLoop_terminal_stops (cfg : Config) (oracle : ℕ → Attempt)
    (st : String) (hst : isTerminalStatus st = true) :
    ∀ (d att rem : ℕ) (le : Option String) (sl : List ℕ),
      att + rem = cfg.retryAttempts → d < rem →
      (∀ m, att < m → m ≤ att + d → retriable (oracle m)) →
      oracle (att + d + 1) = .ok st →
      retryLoop cfg oracle rem att le sl =
        (.terminal st (att + d + 1), sl ++ accSleeps cfg oracle att d) := by
  intro d
  induction d with
  | zero =>
    intro att rem le sl htot hd hret hor
    obtain ⟨r, rfl⟩ : ∃ r, rem = r + 1 := ⟨rem - 1, by omega⟩
    simp only [retryLoop, Nat.add_zero] at hor ⊢
    rw [hor]
    simp [terminal_not_success hst, hst, accSleeps]
  | succ d ih =>
    intro att rem le sl htot hd hret hor
    obtain ⟨r, rfl⟩ : ∃ r, rem = r + 1 := ⟨rem - 1, by omega⟩
    have hcur : retriable (oracle (att + 1)) := hret (att + 1) (by omega) (by omega)
    cases ho : oracle (att + 1) with
    | ok st' =>
      rw [ho] at hcur
      obtain ⟨hs, ht⟩ := hcur
      have hrec := ih (att + 1) r le sl (by omega) (by omega)
        (fun m h1 h2 => hret m (by omega) (by omega))
        (by rw [show att + 1 + d + 1 = att + (d + 1) + 1 by omega]; exact hor)
      simp only [retryLoop, ho, hs, ht, Bool.false_eq_true, if_false]
      rw [hrec, show att + 1 + d + 1 = att + (d + 1) + 1 by omega]
      simp [accSleeps, ho]
    | err e =>
      have hrec := ih (att + 1) r (some e)
        (sl ++ if att + 1 < cfg.retryAttempts then [cfg.retryDelayMs * (att + 1)] else [])
        (by omega) (by omega) (fun m h1 h2 => hret m (by omega) (by omega))
        (by rw [show att + 1 + d + 1 = att + (d + 1) + 1 by omega]; exact hor)
      have hshape :
          (if att + 1 < cfg.retryAttempts then sl ++ [cfg.retryDelayMs * (att + 1)] else sl)
            = sl ++ if att + 1 < cfg.retryAttempts then [cfg.retryDelayMs * (att + 1)] else [] := by
        by_cases hlt : att + 1 < cfg.retryAttempts <;> simp [hlt]
      simp only [retryLoop, ho]
      rw [hshape, hrec, show att + 1 + d + 1 = att + (d + 1) + 1 by omega]
      simp only [accSleeps, ho]
      by_cases hlt : att + 1 < cfg.retryAttempts <;> simp [hlt, List.append_assoc]

/-- C4: a terminal exchange adjudication short-circuits the retry loop:
if the first `n - 1` attempts are retriable and attempt `n` (within the
budget) returns a `cancelled` or `rejected` response,
`execute_with_retry` returns a hard failure after exactly `n` attempts,
with no further attempts and no backoff sleep following that attempt —
the sleeps performed are exactly those of the earlier transport-error
attempts. -/
theorem execute_with_retry_terminal_short_circuit (cfg : Config)
    (oracle : ℕ → Attempt) (n : ℕ) (st : String)
    (hn : 1 ≤ n) (hle : n ≤ cfg.retryAttempts)
    (hor : oracle n = .ok st) (hst : isTerminalStatus st = true)
    (hpre : ∀ m, 1 ≤ m → m < n → retriable (oracle m)) :
    execute_with_retry cfg oracle =
      (.terminal st n, accSleeps cfg oracle 0 (n - 1)) := by
  have h := retryLoop_terminal_stops cfg oracle st hst (n - 1) 0 cfg.retryAttempts
    none [] (by omega) (by omega)
    (fun m h1 h2 => hpre m (by omega) (by omega))
    (by rw [show 0 + (n - 1) + 1 = n by omega]; exact hor)
  rw [show 0 + (n - 1) + 1 = n by omega] at h
  simpa [execute_with_retry] using h

/-- Witness for C4, the spec's own vector: a `rejected` response on
attempt 1 of 4 yields immediate failure with no further attempts and no
backoff sleep. -/
theorem execute_with_retry_terminal_short_circuit_witness :
    execute_with_retry cfgDemo
      (fun m => if m = 1 then Attempt.ok "rejected" else Attempt.err "boom") =
      (RetryResult.terminal "rejected" 1, []) := by
  have h := execute_with_retry_terminal_short_circuit cfgDemo
    (fun m => if m = 1 then Attempt.ok "rejected" else Attempt.err "boom")
    1 "rejected" (by omega) (by norm_num [cfgDemo]) rfl (by decide)
    (fun m h1 h2 => absurd (h1.trans_lt h2) (lt_irrefl 1))
  rw [h]
  decide

/-- C8: the orchestrator distinguishes governance rejections from system
errors.  A `check_can_trade` rejection skips the event with no
`record_error` call — the risk state is returned untouched — whereas a
market-fetch, own-balance-fetch, sizing or execution failure calls
`record_error`, and an execution success calls `record_trade`. -/
theorem orchestrator_error_classification (cfg : Config) (s : RiskState)
    (t : Trade) (mf : Except String Market) (ob : Except String ℚ)
    (wb : Except String ℚ) (szf : ℚ → ℚ → Except String ℚ)
    (ex : Except String OrderResponse) (market : Market) (yb sizeUsd : ℚ)
    (e : String) (resp : OrderResponse) (err : RiskError) :
    (is_whale_verified cfg t.wallet = true → mf = .ok market → ob = .ok yb →
     szf yb (whale_balance_or_default wb) = .ok sizeUsd →
     check_can_trade cfg s t market sizeUsd = .error err →
      process_event cfg s t mf ob wb szf ex = (s, .failedRiskCheck))
  ∧ (is_whale_verified cfg t.wallet = true → mf = .error e →
      process_event cfg s t mf ob wb szf ex = (record_error cfg s, .failedMarketFetch))
  ∧ (is_whale_verified cfg t.wallet = true → mf = .ok market → ob = .error e →
      process_event cfg s t mf ob wb szf ex = (record_error cfg s, .failedBalanceFetch))
  ∧ (is_whale_verified cfg t.wallet = true → mf = .ok market → ob = .ok yb →
     szf yb (whale_balance_or_default wb) = .error e →
      process_event cfg s t mf ob wb szf ex = (record_error cfg s, .failedSizing))
  ∧ (is_whale_verified cfg t.wallet = true → mf = .ok market → ob = .ok yb →
     szf yb (whale_balance_or_default wb) = .ok sizeUsd →
     check_can_trade cfg s t market sizeUsd = .ok () → ex = .error e →
      process_event cfg s t mf ob wb szf ex = (record_error cfg s, .failedExecution))
  ∧ (is_whale_verified cfg t.wallet = true → mf = .ok market → ob = .ok yb →
     szf yb (whale_balance_or_default wb) = .ok sizeUsd →
     check_can_trade cfg s t market sizeUsd = .ok () → ex = .ok resp →
      process_event cfg s t mf ob wb szf ex = (record_trade t sizeUsd s, .traded)) := by
  refine ⟨?_, ?_, ?_, ?_, ?_, ?_⟩ <;>
    intro hv <;> intros <;> subst_eqs <;>
    simp_all [process_event]

/-- Witness for C8 at a concrete input: a breaker-tripped risk
rejection leaves the risk state exactly as it was and marks the event
as failed at the risk check. -/
theorem orchestrator_error_classification_witness :
    process_event cfgDemo trippedDemo tradeDemo (.ok marketDemo) (.ok 1000)
      (.ok 10000) (fun _ _ => .ok 50) (.error "never reached") =
      (trippedDemo, .failedRiskCheck) :=
  (orchestrator_error_classification cfgDemo trippedDemo tradeDemo
      (.ok marketDemo) (.ok 1000) (.ok 10000) (fun _ _ => .ok 50)
      (.error "never reached") marketDemo 1000 50 "never reached"
      ⟨"", "", 0, 0⟩ (.breakerTripped "Too many consecutive errors: 3")).1
    (by decide) rfl rfl rfl rfl

end CopyBot
